import Mathlib

/-
Verification of the execution-gatekeeper core of the Kali MCP server
(src/server.py) against its natural-language specification.

The Python source is shallowly embedded: strings are Lean strings
(Python str operations are modelled character-wise on the underlying
character list), dictionaries are functions into Option, the operating
system (executable resolution, filesystem, process execution) is an
explicit World record, and exceptions are Except values.  Effects that
matter to the specification (process launches, directory creation) are
returned as explicit event lists.
-/

set_option maxRecDepth 10000

namespace KaliMCP

/- ---------------------------------------------------------------
   Characters that the hosting rules make awkward to write literally.
   --------------------------------------------------------------- -/

/-- The backtick character. -/
def backtickChar : Char := Char.ofNat 96

/-- The single-quote character. -/
def squoteChar : Char := Char.ofNat 39

/-- The double-quote character. -/
def dquoteChar : Char := Char.ofNat 34

/-- The backslash character. -/
def backslashChar : Char := Char.ofNat 92

/- ---------------------------------------------------------------
   Configuration (class Config, src/server.py lines 54-89).
   Environment-variable overrides are not modelled; the defaults are
   the dataclass defaults.
   --------------------------------------------------------------- -/

structure Config where
  max_timeout : Nat
  default_timeout : Nat
  max_output_size : Nat
  allowed_tools : List String
  working_directory : String

/-- The dataclass defaults of Config in src/server.py. -/
def defaultConfig : Config where
  max_timeout := 300
  default_timeout := 60
  max_output_size := 1024 * 1024
  allowed_tools :=
    ["nmap", "sqlmap", "hydra", "john", "nikto",
     "aircrack-ng", "metasploit-framework", "gobuster",
     "dirb", "wfuzz", "cewl", "hashcat", "crunch",
     "medusa", "ncrack", "enum4linux", "smbclient",
     "rpcclient", "ldapsearch", "dig", "nslookup",
     "whois", "traceroute", "ping", "netstat", "ss"]
  working_directory := "/tmp/kali-mcp"

/- ---------------------------------------------------------------
   Request validation (class ToolExecutionRequest, lines 109-128).
   --------------------------------------------------------------- -/

/-- A character of the class [a-zA-Z0-9_-] of the tool-name regex. -/
def isToolChar (c : Char) : Bool :=
  c.isAlpha || c.isDigit || c = '_' || c = '-'

/-- Python re.match with the pattern anchored by a dollar sign accepts the
string when it consists of pattern characters, or when it consists of
pattern characters followed by one trailing newline (the dollar also
matches just before a newline that ends the string).  This embeds
re.match of the raw pattern used by validate_tool (line 118). -/
def reMatchToolName (v : String) : Bool :=
  if v.data = [] then false
  else if v.data.all isToolChar then true
  else if v.data.getLast? = some '\n' ∧ v.data.dropLast ≠ [] ∧
          v.data.dropLast.all isToolChar then true
  else false

/-- The blacklisted shell metacharacters of validate_args (line 126). -/
def forbiddenChars : List Char :=
  [';', '&', '|', backtickChar, '$', '(', ')', '<', '>']

/-- validate_args rejects exactly when some blacklisted character occurs in
the argument string (line 126). -/
def argsDangerous (v : String) : Bool :=
  forbiddenChars.any (fun c => v.data.contains c)

/-- The raw inbound payload of the /run endpoint before validation. -/
structure RawRequest where
  tool : String
  args : Option String
  timeout : Option Nat
  working_dir : Option String

/-- A validated ToolExecutionRequest (only obtainable through
mkToolExecutionRequest, as pydantic only yields validated models). -/
structure ToolExecutionRequest where
  tool : String
  args : Option String
  timeout : Option Nat
  working_dir : Option String

/-- Pydantic model construction for ToolExecutionRequest: the tool-name
regex validator (lines 116-120), the argument blacklist validator
(lines 122-128) and the Field bounds ge=1, le=config.max_timeout on
timeout (line 113), in field order.  Any failure is a validation
error (HTTP 422 at the FastAPI boundary). -/
def mkToolExecutionRequest (cfg : Config) (r : RawRequest) :
    Except String ToolExecutionRequest :=
  if reMatchToolName r.tool = false then
    Except.error "Tool name contains invalid characters"
  else if (match r.args with
           | some a => argsDangerous a
           | none => false) = true then
    Except.error "Arguments contain potentially dangerous characters"
  else
    match r.timeout with
    | some t =>
        if 1 ≤ t ∧ t ≤ cfg.max_timeout then
          Except.ok ⟨r.tool, r.args, r.timeout, r.working_dir⟩
        else Except.error "timeout out of bounds"
    | none => Except.ok ⟨r.tool, r.args, r.timeout, r.working_dir⟩

/- ---------------------------------------------------------------
   sanitize_path (lines 158-170): two Python str.replace passes, an
   absolute-path prefix, then os.path.normpath (POSIX).
   --------------------------------------------------------------- -/

/-- Python str.replace for a two-character pattern: left-to-right,
non-overlapping replacement of the pair (a, b) by new. -/
def replace2 (a b : Char) (new : List Char) : List Char → List Char
  | [] => []
  | [c] => [c]
  | c :: d :: rest =>
      if c = a ∧ d = b then new ++ replace2 a b new rest
      else c :: replace2 a b new (d :: rest)

/-- Python str.split on the path separator, keeping empty components. -/
def splitSlash : List Char → List (List Char)
  | [] => [[]]
  | c :: rest =>
      let r := splitSlash rest
      if c = '/' then [] :: r
      else
        match r with
        | h :: t => (c :: h) :: t
        | [] => [[c]]

/-- Python sep.join for the path separator. -/
def joinSlash : List (List Char) → List Char
  | [] => []
  | [x] => x
  | x :: xs => x ++ '/' :: joinSlash xs

/-- The component loop of posixpath.normpath: drops empty and dot
components, and resolves a dot-dot component against the accumulated
components exactly as CPython does. -/
def normComps (initialSlashes : Nat) : List (List Char) → List (List Char) → List (List Char)
  | acc, [] => acc
  | acc, comp :: rest =>
      if comp = [] ∨ comp = ['.'] then normComps initialSlashes acc rest
      else if comp ≠ ['.', '.'] ∨ (initialSlashes = 0 ∧ acc = []) ∨
              acc.getLast? = some ['.', '.'] then
        normComps initialSlashes (acc ++ [comp]) rest
      else if acc ≠ [] then normComps initialSlashes acc.dropLast rest
      else normComps initialSlashes acc rest

/-- posixpath.normpath on the character list of a path.  One or three or
more leading slashes collapse to one; exactly two are preserved, as in
CPython. -/
def normpathChars (p : List Char) : List Char :=
  if p = [] then ['.']
  else
    let initialSlashes : Nat :=
      match p with
      | '/' :: '/' :: '/' :: _ => 1
      | '/' :: '/' :: _ => 2
      | '/' :: _ => 1
      | _ => 0
    let newComps := normComps initialSlashes [] (splitSlash p)
    let res := List.replicate initialSlashes '/' ++ joinSlash newComps
    if res = [] then ['.'] else res

/-- sanitize_path (lines 158-170) on the character list: remove every
dot-dot pair, collapse doubled separators by one replace pass, force a
leading slash, then normpath. -/
def sanitizePathChars (p : List Char) : List Char :=
  if p = [] then []
  else
    let p1 := replace2 '.' '.' [] p
    let p2 := replace2 '/' '/' ['/'] p1
    let p3 := if p2.head? = some '/' then p2 else '/' :: p2
    normpathChars p3

/-- sanitize_path of src/server.py lines 158-170. -/
def sanitize_path (s : String) : String :=
  String.mk (sanitizePathChars s.data)

/- ---------------------------------------------------------------
   shlex.split (used by run_tool at line 323), POSIX mode with
   whitespace splitting, embedded as the CPython state machine with
   one state per character read.
   --------------------------------------------------------------- -/

/-- A whitespace character of shlex (space, tab, carriage return, newline). -/
def isShlexWS (c : Char) : Bool :=
  c = ' ' || c = '\t' || c = '\r' || c = '\n'

/-- The lexer states of shlex: outside quotes, inside single quotes,
inside double quotes, and after an escape character in the outer or
double-quoted context. -/
inductive SMode where
  | norm
  | single
  | double
  | escNorm
  | escDouble

/-- One step of the shlex state machine per input character.  cur is the
reversed current token, hasTok records whether a token (possibly empty,
from quotes) is in progress, acc the finished tokens. -/
def shlexGo : SMode → List Char → List Char → Bool → List String →
    Except String (List String)
  | SMode.norm, [], cur, hasTok, acc =>
      Except.ok (acc ++ if hasTok then [String.mk cur.reverse] else [])
  | SMode.single, [], _, _, _ => Except.error "No closing quotation"
  | SMode.double, [], _, _, _ => Except.error "No closing quotation"
  | SMode.escNorm, [], _, _, _ => Except.error "No escaped character"
  | SMode.escDouble, [], _, _, _ => Except.error "No escaped character"
  | SMode.norm, c :: rest, cur, hasTok, acc =>
      if c = squoteChar then shlexGo SMode.single rest cur true acc
      else if c = dquoteChar then shlexGo SMode.double rest cur true acc
      else if c = backslashChar then shlexGo SMode.escNorm rest cur true acc
      else if isShlexWS c then
        if hasTok then shlexGo SMode.norm rest [] false (acc ++ [String.mk cur.reverse])
        else shlexGo SMode.norm rest [] false acc
      else shlexGo SMode.norm rest (c :: cur) true acc
  | SMode.escNorm, c :: rest, cur, _, acc =>
      shlexGo SMode.norm rest (c :: cur) true acc
  | SMode.single, c :: rest, cur, _, acc =>
      if c = squoteChar then shlexGo SMode.norm rest cur true acc
      else shlexGo SMode.single rest (c :: cur) true acc
  | SMode.double, c :: rest, cur, _, acc =>
      if c = dquoteChar then shlexGo SMode.norm rest cur true acc
      else if c = backslashChar then shlexGo SMode.escDouble rest cur true acc
      else shlexGo SMode.double rest (c :: cur) true acc
  | SMode.escDouble, c :: rest, cur, _, acc =>
      if c = dquoteChar || c = backslashChar then
        shlexGo SMode.double rest (c :: cur) true acc
      else shlexGo SMode.double rest (c :: backslashChar :: cur) true acc

/-- shlex.split of CPython in POSIX mode. -/
def shlexSplit (s : String) : Except String (List String) :=
  shlexGo SMode.norm s.data [] false []

/-- The argument tokenization of run_tool (lines 319-325): a missing or
empty (falsy) argument string contributes no tokens and no shlex call;
otherwise shlex.split runs and its ValueError propagates. -/
def tokenize_args : Option String → Except String (List String)
  | none => Except.ok []
  | some a => if a = "" then Except.ok [] else shlexSplit a

/- ---------------------------------------------------------------
   Sandbox environment (create_sandbox_environment, lines 188-209).
   Environments are finite maps modelled as functions into Option.
   --------------------------------------------------------------- -/

/-- The retained environment-variable allow-list (lines 193-195). -/
def restricted_vars : List String :=
  ["PATH", "HOME", "USER", "SHELL", "PWD", "LANG", "LC_ALL"]

/-- create_sandbox_environment (lines 188-209): keep only the restricted
variables of the inherited environment, force PWD to the working
directory, and set the two dynamic-linker variables to the empty
string. -/
def create_sandbox_environment (env : String → Option String)
    (working_dir : String) : String → Option String :=
  fun v =>
    if v = "LD_PRELOAD" then some ""
    else if v = "LD_LIBRARY_PATH" then some ""
    else if v = "PWD" then some working_dir
    else if v ∈ restricted_vars then env v
    else none

/- ---------------------------------------------------------------
   The host operating system as seen by the server, and the execution
   gatekeeper run_tool (lines 282-362).
   --------------------------------------------------------------- -/

/-- The class of a Python exception raised by subprocess.run, as far as
the except clauses of this program distinguish them:
subprocess.CalledProcessError, FileNotFoundError, or any other
exception class (e.g. UnicodeDecodeError from text-mode decoding, or
PermissionError).  subprocess.TimeoutExpired is the separate timedOut
outcome. -/
inductive ExcClass where
  | calledProcessError
  | fileNotFoundError
  | otherError

/-- The outcome of one subprocess.run call: normal completion with the
captured streams and exit code, expiry of the timeout
(subprocess.TimeoutExpired), or a raised exception of a given
class. -/
inductive ProcOutcome where
  | completed (stdout stderr : String) (returncode : Int)
  | timedOut
  | raised (exc : ExcClass) (msg : String)

/-- The ambient operating system: executable lookup (shutil.which), the
execute-permission check (os.access X_OK), filesystem existence, the
inherited environment (os.environ), subprocess.run with explicit cwd
and env (used by run_tool) and subprocess.run with the inherited
context (used by the version probe of get_tool_info). -/
structure World where
  which : String → Option String
  access_x : String → Bool
  pathExists : String → Bool
  environ : String → Option String
  exec : List String → String → (String → Option String) → Nat → ProcOutcome
  exec_inherit : List String → Nat → ProcOutcome

/-- Whether shutil.which finds the tool and the found path is executable
(lines 177-186). -/
def tool_resolves (w : World) (tool : String) : Bool :=
  match w.which tool with
  | some p => w.access_x p
  | none => false

/-- validate_tool_access (lines 172-186): allow-listed, resolvable and
executable. -/
def validate_tool_access (cfg : Config) (w : World) (tool : String) : Bool :=
  cfg.allowed_tools.contains tool && tool_resolves w tool

/-- The error taxonomy of the gatekeeper: SecurityError, ValueError,
TimeoutError and any other exception of run_tool. -/
inductive PyError where
  | securityError (msg : String)
  | validationError (msg : String)
  | timeoutError (msg : String)
  | executionError (msg : String)

/-- The timeout resolution of run_tool (lines 305-308): the default when
absent, a ValueError when above the ceiling, the caller value
otherwise. -/
def effective_timeout (cfg : Config) : Option Nat → Except PyError Nat
  | none => Except.ok cfg.default_timeout
  | some t =>
      if t > cfg.max_timeout then
        Except.error (PyError.validationError "Timeout exceeds maximum allowed")
      else Except.ok t

/-- The working directory used by run_tool (lines 310-317): a truthy
caller-supplied directory is sanitized, otherwise the configured
directory is used. -/
def resolve_working_dir (cfg : Config) : Option String → String
  | none => cfg.working_directory
  | some s => if s = "" then cfg.working_directory else sanitize_path s

/-- The os.makedirs calls of run_tool (lines 310-317): a truthy
caller-supplied directory is created only when absent; the configured
directory is always passed to makedirs with exist_ok. -/
def mkdir_calls (cfg : Config) (w : World) : Option String → List String
  | none => [cfg.working_directory]
  | some s =>
      if s = "" then [cfg.working_directory]
      else if w.pathExists (sanitize_path s) = true then []
      else [sanitize_path s]

/-- The output-size cap of run_tool (lines 345-349): over-cap output is
cut to the first max_output_size characters and the truncation marker
is appended. -/
def truncate_output (cfg : Config) (out : String) : String :=
  if out.length > cfg.max_output_size then
    String.mk (out.data.take cfg.max_output_size) ++ "\n... (output truncated)"
  else out

/-- One OS process launch: the literal argument vector, working
directory, environment, deadline, and whether a shell interprets the
command (subprocess.run with a list and no shell flag never uses
one). -/
structure LaunchEvent where
  argv : List String
  cwd : String
  env : String → Option String
  timeoutSec : Nat
  shell : Bool

/-- What one run_tool call produced: its return value or exception, the
processes it launched and the directories it passed to makedirs. -/
structure RunResult where
  result : Except PyError String
  launches : List LaunchEvent
  mkdirCalls : List String

/-- The one subprocess.run call of run_tool (lines 334-341): the literal
argument vector, the resolved working directory, the sandbox
environment, the effective deadline, and no shell. -/
def launch_event (cfg : Config) (w : World) (tool : String) (toks : List String)
    (working_dir : Option String) (eff : Nat) : LaunchEvent :=
  { argv := tool :: toks,
    cwd := resolve_working_dir cfg working_dir,
    env := create_sandbox_environment w.environ (resolve_working_dir cfg working_dir),
    timeoutSec := eff,
    shell := false }

/-- run_tool (lines 282-362): allow-list gate, timeout resolution,
working-directory preparation, shlex tokenization, sandbox
environment, then a single subprocess.run without a shell; the
combined output is truncated on return. -/
def run_tool (cfg : Config) (w : World) (tool : String) (args : Option String)
    (timeout : Option Nat) (working_dir : Option String) : RunResult :=
  if validate_tool_access cfg w tool = true then
    match effective_timeout cfg timeout with
    | Except.error e => { result := Except.error e, launches := [], mkdirCalls := [] }
    | Except.ok eff =>
      match tokenize_args args with
      | Except.error _ =>
          { result := Except.error (PyError.validationError "Invalid arguments"),
            launches := [], mkdirCalls := mkdir_calls cfg w working_dir }
      | Except.ok toks =>
          match w.exec (tool :: toks) (resolve_working_dir cfg working_dir)
              (create_sandbox_environment w.environ (resolve_working_dir cfg working_dir))
              eff with
          | ProcOutcome.completed so se _rc =>
              { result := Except.ok (truncate_output cfg (so ++ se)),
                launches := [launch_event cfg w tool toks working_dir eff],
                mkdirCalls := mkdir_calls cfg w working_dir }
          | ProcOutcome.timedOut =>
              { result := Except.error (PyError.timeoutError "Tool timed out"),
                launches := [launch_event cfg w tool toks working_dir eff],
                mkdirCalls := mkdir_calls cfg w working_dir }
          | ProcOutcome.raised _exc m =>
              { result := Except.error (PyError.executionError m),
                launches := [launch_event cfg w tool toks working_dir eff],
                mkdirCalls := mkdir_calls cfg w working_dir }
  else
    { result := Except.error (PyError.securityError "Tool is not allowed or not available"),
      launches := [], mkdirCalls := [] }

/- ---------------------------------------------------------------
   HTTP layer: the /run endpoint (run_tool_http, lines 450-486) over
   a validated request, and the full pipeline from a raw payload.
   --------------------------------------------------------------- -/

/-- The response model of /run (lines 130-138); the wall-clock field is
not modelled. -/
structure ToolExecutionResponse where
  success : Bool
  output : String
  error : Option String
  tool : String
  args : Option String
  return_code : Int

/-- What the transport returns: a 200 response or an HTTP error status
with a detail string. -/
inductive HttpOutcome where
  | ok (resp : ToolExecutionResponse)
  | httpError (status : Nat) (detail : String)

/-- run_tool_http (lines 450-486): call run_tool and wrap its outcome,
mapping SecurityError to 403, ValueError to 400, TimeoutError to 408
and anything else to 500; a completed run is always reported with
success true and return_code 0. -/
def run_tool_http (cfg : Config) (w : World) (req : ToolExecutionRequest) :
    HttpOutcome × List LaunchEvent :=
  (match (run_tool cfg w req.tool req.args req.timeout req.working_dir).result with
   | Except.ok out =>
       HttpOutcome.ok { success := true, output := out, error := none,
                        tool := req.tool, args := req.args, return_code := 0 }
   | Except.error (PyError.securityError m) => HttpOutcome.httpError 403 m
   | Except.error (PyError.validationError m) => HttpOutcome.httpError 400 m
   | Except.error (PyError.timeoutError m) => HttpOutcome.httpError 408 m
   | Except.error (PyError.executionError _) =>
       HttpOutcome.httpError 500 "Internal server error",
   (run_tool cfg w req.tool req.args req.timeout req.working_dir).launches)

/-- The full /run pipeline: FastAPI builds the pydantic model first (a
failure is a 422 validation error before anything runs), then the
endpoint body executes. -/
def handle_run (cfg : Config) (w : World) (raw : RawRequest) :
    HttpOutcome × List LaunchEvent :=
  match mkToolExecutionRequest cfg raw with
  | Except.error m => (HttpOutcome.httpError 422 m, [])
  | Except.ok req => run_tool_http cfg w req

/-- Whether a run_tool outcome is a rejection issued before any launch
(AccessDenied or ValidationError in the taxonomy of the spec). -/
def preLaunchReject : Except PyError String → Bool
  | Except.error (PyError.securityError _) => true
  | Except.error (PyError.validationError _) => true
  | _ => false

/- ---------------------------------------------------------------
   Tool metadata (ToolManager, lines 212-264).
   --------------------------------------------------------------- -/

/-- Information about one tool (class ToolInfo, lines 140-146; the
description field is never set by the listing code). -/
structure ToolInfo where
  name : String
  path : String
  version : Option String
  available : Bool

/-- A Python-str.strip whitespace character. -/
def isPyWS (c : Char) : Bool :=
  c = ' ' || c = '\t' || c = '\n' || c = '\r' || c = Char.ofNat 11 || c = Char.ofNat 12

/-- Python str.strip on a character list. -/
def pyStrip (l : List Char) : List Char :=
  ((l.dropWhile isPyWS).reverse.dropWhile isPyWS).reverse

/-- The characters before the first newline. -/
def firstLineChars : List Char → List Char
  | [] => []
  | c :: rest => if c = '\n' then [] else c :: firstLineChars rest

/-- The version probe of get_tool_info (lines 229-241): run the tool
with a version flag under a five-second timeout and take the first
line of the stripped stdout when the exit code is zero.  The except
clause (line 240) silences only subprocess.TimeoutExpired,
subprocess.CalledProcessError and FileNotFoundError; an exception of
any other class propagates out of the probe. -/
def version_probe (w : World) (tool_name : String) : Except String (Option String) :=
  match w.exec_inherit [tool_name, "--version"] 5 with
  | ProcOutcome.completed so _ rc =>
      Except.ok (if rc = 0 then some (String.mk (firstLineChars (pyStrip so.data))) else none)
  | ProcOutcome.timedOut => Except.ok none
  | ProcOutcome.raised ExcClass.calledProcessError _ => Except.ok none
  | ProcOutcome.raised ExcClass.fileNotFoundError _ => Except.ok none
  | ProcOutcome.raised ExcClass.otherError m => Except.error m

/-- ToolManager.get_tool_info (lines 220-248): available tools get their
resolved path and best-effort version; anything failing the access
check or resolution yields none; an uncaught probe exception
propagates out of the call. -/
def get_tool_info (cfg : Config) (w : World) (tool_name : String) :
    Except String (Option ToolInfo) :=
  if validate_tool_access cfg w tool_name = true then
    match w.which tool_name with
    | none => Except.ok none
    | some tool_path =>
        match version_probe w tool_name with
        | Except.error m => Except.error m
        | Except.ok version =>
            Except.ok (some { name := tool_name, path := tool_path,
                              version := version, available := true })
  else Except.ok none

/-- The unavailable placeholder entry of list_tools (lines 258-262). -/
def placeholder_info (tool_name : String) : ToolInfo :=
  { name := tool_name, path := "", version := none, available := false }

/-- The loop of ToolManager.list_tools (lines 252-263): one entry per
name, an unavailable placeholder when get_tool_info yields none; an
exception raised inside get_tool_info aborts the whole loop. -/
def list_tools_go (cfg : Config) (w : World) : List String → Except String (List ToolInfo)
  | [] => Except.ok []
  | tool_name :: rest =>
      match get_tool_info cfg w tool_name with
      | Except.error m => Except.error m
      | Except.ok (some ti) =>
          match list_tools_go cfg w rest with
          | Except.error m => Except.error m
          | Except.ok ts => Except.ok (ti :: ts)
      | Except.ok none =>
          match list_tools_go cfg w rest with
          | Except.error m => Except.error m
          | Except.ok ts => Except.ok (placeholder_info tool_name :: ts)

/-- ToolManager.list_tools (lines 250-264) over the configured
allow-list. -/
def list_tools (cfg : Config) (w : World) : Except String (List ToolInfo) :=
  list_tools_go cfg w cfg.allowed_tools

/- ---------------------------------------------------------------
   Concrete worlds and configurations used by witnesses and
   counterexamples.
   --------------------------------------------------------------- -/

/-- A host on which only nmap exists; every process completes with exit
code 2 and fixed captured output. -/
def testWorld : World where
  which := fun t => if t = "nmap" then some "/usr/bin/nmap" else none
  access_x := fun _ => true
  pathExists := fun _ => true
  environ := fun v => if v = "PATH" then some "/usr/bin:/bin" else none
  exec := fun _ _ _ _ => ProcOutcome.completed "Nmap version 7.94" "" 2
  exec_inherit := fun _ _ => ProcOutcome.completed "Nmap version 7.94" "" 0

/-- The default configuration with a four-character output cap. -/
def smallConfig : Config :=
  { defaultConfig with max_output_size := 4 }

/-- A host like testWorld whose processes emit six characters of
combined output. -/
def bigOutWorld : World :=
  { testWorld with exec := fun _ _ _ _ => ProcOutcome.completed "HELLO" "!" 0 }

/- ---------------------------------------------------------------
   Helper lemmas shared by the claim theorems.
   --------------------------------------------------------------- -/

/-- argsDangerous holds exactly when some blacklisted character occurs
in the string. -/
theorem argsDangerous_iff (s : String) :
    argsDangerous s = true ↔ ∃ c ∈ forbiddenChars, c ∈ s.data := by
  unfold argsDangerous
  rw [List.any_eq_true]
  simp

/-- A successfully constructed ToolExecutionRequest carries the raw
fields unchanged and certifies every pydantic validation. -/
theorem mk_ok_spec (cfg : Config) (r : RawRequest) (req : ToolExecutionRequest)
    (h : mkToolExecutionRequest cfg r = Except.ok req) :
    req.tool = r.tool ∧ req.args = r.args ∧ req.timeout = r.timeout ∧
    req.working_dir = r.working_dir ∧
    reMatchToolName r.tool = true ∧
    (∀ a, r.args = some a → argsDangerous a = false) ∧
    (∀ t, r.timeout = some t → 1 ≤ t ∧ t ≤ cfg.max_timeout) := by
  unfold mkToolExecutionRequest at h
  split at h
  · exact absurd h (by simp)
  next hre =>
    split at h
    · exact absurd h (by simp)
    next hargs =>
      rw [Bool.not_eq_false] at hre
      split at h
      next t heq =>
        split at h
        next hbound =>
          cases h
          refine ⟨rfl, rfl, rfl, rfl, hre, ?_, ?_⟩
          · intro a ha
            rw [ha] at hargs
            exact Bool.not_eq_true _ |>.mp hargs
          · intro t' ht'
            rw [heq] at ht'
            cases ht'
            exact hbound
        · exact absurd h (by simp)
      next heq =>
        cases h
        refine ⟨rfl, rfl, rfl, rfl, hre, ?_, ?_⟩
        · intro a ha
          rw [ha] at hargs
          exact Bool.not_eq_true _ |>.mp hargs
        · intro t' ht'
          rw [heq] at ht'
          cases ht'

/-- A raw request whose argument string holds a blacklisted character
never becomes a ToolExecutionRequest. -/
theorem mk_error_of_dangerous (cfg : Config) (r : RawRequest) (a : String)
    (ha : r.args = some a) (hd : argsDangerous a = true) :
    ∃ m, mkToolExecutionRequest cfg r = Except.error m := by
  unfold mkToolExecutionRequest
  split
  · exact ⟨_, rfl⟩
  · rw [ha]
    simp [hd]

/-- A raw request whose timeout exceeds the ceiling never becomes a
ToolExecutionRequest. -/
theorem mk_error_of_big_timeout (cfg : Config) (r : RawRequest) (t : Nat)
    (ht : r.timeout = some t) (hgt : t > cfg.max_timeout) :
    ∃ m, mkToolExecutionRequest cfg r = Except.error m := by
  unfold mkToolExecutionRequest
  split
  · exact ⟨_, rfl⟩
  · split
    · exact ⟨_, rfl⟩
    · rw [ht]
      have : ¬ (1 ≤ t ∧ t ≤ cfg.max_timeout) := by omega
      simp [this]

/-- effective_timeout only ever fails with the over-ceiling ValueError. -/
theorem effective_timeout_error (cfg : Config) (timeout : Option Nat) (e : PyError)
    (h : effective_timeout cfg timeout = Except.error e) :
    e = PyError.validationError "Timeout exceeds maximum allowed" := by
  unfold effective_timeout at h
  match timeout with
  | none => cases h
  | some t =>
    simp only [] at h
    split at h
    · cases h; rfl
    · cases h

/-- Every launch of run_tool happened after the allow-list gate, with
the resolved timeout and working directory, the shlex token vector,
the sandbox environment, and no shell. -/
theorem run_tool_launch_spec (cfg : Config) (w : World) (tool : String)
    (args : Option String) (timeout : Option Nat) (wdir : Option String) :
    ∀ ev ∈ (run_tool cfg w tool args timeout wdir).launches,
      validate_tool_access cfg w tool = true ∧
      effective_timeout cfg timeout = Except.ok ev.timeoutSec ∧
      (∃ toks, tokenize_args args = Except.ok toks ∧ ev.argv = tool :: toks) ∧
      ev.cwd = resolve_working_dir cfg wdir ∧
      ev.env = create_sandbox_environment w.environ (resolve_working_dir cfg wdir) ∧
      ev.shell = false := by
  intro ev hev
  unfold run_tool at hev
  split at hev
  next hval =>
    split at hev
    next e he => simp at hev
    next eff he =>
      split at hev
      next he2 => simp at hev
      next toks ht =>
        split at hev <;>
          { rw [List.mem_singleton] at hev
            subst hev
            exact ⟨hval, he, ⟨toks, ht, rfl⟩, rfl, rfl, rfl⟩ }
  next hval => simp at hev

/-- The resolved working directory either already exists or is among
the directories handed to makedirs before launch. -/
theorem workdir_exists_or_created (cfg : Config) (w : World) (wdir : Option String) :
    w.pathExists (resolve_working_dir cfg wdir) = true ∨
    resolve_working_dir cfg wdir ∈ mkdir_calls cfg w wdir := by
  match wdir with
  | none => exact Or.inr (List.mem_singleton.mpr rfl)
  | some s =>
    unfold resolve_working_dir mkdir_calls
    by_cases hs : s = ""
    · simp [hs]
    · simp only [if_neg hs]
      by_cases hex : w.pathExists (sanitize_path s) = true
      · exact Or.inl hex
      · rw [if_neg hex]
        exact Or.inr (List.mem_singleton.mpr rfl)

/-- run_tool_http hands back exactly the launches of the underlying
run_tool call. -/
theorem run_tool_http_launches (cfg : Config) (w : World) (req : ToolExecutionRequest) :
    (run_tool_http cfg w req).2 =
      (run_tool cfg w req.tool req.args req.timeout req.working_dir).launches := rfl

/-- A 200 response of run_tool_http always carries success true and the
hard-coded return code 0. -/
theorem run_tool_http_ok (cfg : Config) (w : World) (req : ToolExecutionRequest)
    (resp : ToolExecutionResponse)
    (h : (run_tool_http cfg w req).1 = HttpOutcome.ok resp) :
    resp.success = true ∧ resp.return_code = 0 := by
  unfold run_tool_http at h
  cases hres : (run_tool cfg w req.tool req.args req.timeout req.working_dir).result with
  | ok out =>
    rw [hres] at h
    cases h
    exact ⟨rfl, rfl⟩
  | error e =>
    rw [hres] at h
    cases e <;> cases h

/-- Whether the first character list occurs contiguously inside the
second. -/
def listHasInfix (needle : List Char) : List Char → Bool
  | [] => needle.isEmpty
  | c :: rest => needle.isPrefixOf (c :: rest) || listHasInfix needle rest

/-- An indexed element of a list is a member. -/
theorem mem_of_get?_entry {α : Type} (l : List α) (i : Nat) (a : α)
    (h : l.get? i = some a) : a ∈ l := by
  induction l generalizing i with
  | nil => cases i <;> cases h
  | cons b t ih => cases i with
    | zero => cases h; exact List.mem_cons_self _ _
    | succ n => exact List.mem_cons_of_mem _ (ih n h)

/-- When the listing loop returns a list, it has one entry per input
name, and each entry is either the get_tool_info result for its name
or the unavailable placeholder when that result is none. -/
theorem list_tools_go_spec (cfg : Config) (w : World) (names : List String)
    (ts : List ToolInfo) (hok : list_tools_go cfg w names = Except.ok ts) :
    ts.length = names.length ∧
    ∀ i tname, names.get? i = some tname →
      ∃ ti, ts.get? i = some ti ∧
        (get_tool_info cfg w tname = Except.ok (some ti) ∨
         (get_tool_info cfg w tname = Except.ok none ∧ ti = placeholder_info tname)) := by
  induction names generalizing ts with
  | nil =>
    cases hok
    exact ⟨rfl, fun i tname hi => by cases i <;> cases hi⟩
  | cons n rest ih =>
    unfold list_tools_go at hok
    cases hg : get_tool_info cfg w n with
    | error m => rw [hg] at hok; cases hok
    | ok r =>
      rw [hg] at hok
      cases r with
      | some ti0 =>
        cases hrest : list_tools_go cfg w rest with
        | error m => rw [hrest] at hok; cases hok
        | ok ts' =>
          rw [hrest] at hok
          cases hok
          obtain ⟨hlen, hidx⟩ := ih ts' hrest
          refine ⟨by simp [hlen], ?_⟩
          intro i tname hi
          cases i with
          | zero =>
            cases hi
            exact ⟨ti0, rfl, Or.inl hg⟩
          | succ j => exact hidx j tname hi
      | none =>
        cases hrest : list_tools_go cfg w rest with
        | error m => rw [hrest] at hok; cases hok
        | ok ts' =>
          rw [hrest] at hok
          cases hok
          obtain ⟨hlen, hidx⟩ := ih ts' hrest
          refine ⟨by simp [hlen], ?_⟩
          intro i tname hi
          cases i with
          | zero =>
            cases hi
            exact ⟨placeholder_info n, rfl, Or.inr ⟨hg, rfl⟩⟩
          | succ j => exact hidx j tname hi

/-- An entry produced for an allow-listed name is that name's entry:
available with the resolved path when the name resolves to an
executable, the empty-path placeholder otherwise. -/
theorem get_tool_info_entry_spec (cfg : Config) (w : World) (tname : String)
    (ti : ToolInfo) (hmem : tname ∈ cfg.allowed_tools)
    (h : get_tool_info cfg w tname = Except.ok (some ti) ∨
         (get_tool_info cfg w tname = Except.ok none ∧ ti = placeholder_info tname)) :
    ti.name = tname ∧
    (tool_resolves w tname = true → ti.available = true ∧ w.which tname = some ti.path) ∧
    (tool_resolves w tname = false → ti.available = false ∧ ti.path = "") := by
  have hcontains : cfg.allowed_tools.contains tname = true := List.elem_iff.mpr hmem
  cases hres : tool_resolves w tname with
  | true =>
    cases hw : w.which tname with
    | none =>
      unfold tool_resolves at hres
      rw [hw] at hres
      cases hres
    | some p =>
      have hval : validate_tool_access cfg w tname = true := by
        unfold validate_tool_access
        rw [hcontains, hres]
        rfl
      cases hpr : version_probe w tname with
      | error m =>
        have hgt : get_tool_info cfg w tname = Except.error m := by
          simp [get_tool_info, hval, hw, hpr]
        rcases h with h | ⟨h, _⟩ <;> rw [hgt] at h <;> cases h
      | ok v =>
        have hgt : get_tool_info cfg w tname =
            Except.ok (some { name := tname, path := p, version := v,
                              available := true }) := by
          simp [get_tool_info, hval, hw, hpr]
        rcases h with h | ⟨h, _⟩
        · rw [hgt] at h
          cases h
          refine ⟨rfl, fun _ => ⟨rfl, rfl⟩, ?_⟩
          intro hf
          cases hf
        · rw [hgt] at h
          simp at h
  | false =>
    have hval : validate_tool_access cfg w tname = false := by
      unfold validate_tool_access
      rw [hres]
      simp
    have hgt : get_tool_info cfg w tname = Except.ok none := by
      simp [get_tool_info, hval]
    rcases h with h | ⟨h, hti⟩
    · rw [hgt] at h
      simp at h
    · rw [hti]
      refine ⟨rfl, ?_, fun _ => ⟨rfl, rfl⟩⟩
      intro ht
      cases ht

/- ---------------------------------------------------------------
   The claim theorems.
   --------------------------------------------------------------- -/

/-- C1 (amended): through the /run pipeline no process is launched
unless the requested tool is allow-listed and the raw argument string
contains none of the forbidden shell metacharacters, and a request
whose argument string contains a forbidden character is rejected with
a validation error before any launch; the argument screen lives only
in the pydantic model, not in run_tool itself. -/
theorem C1_pipeline_gate (cfg : Config) (w : World) (raw : RawRequest) :
    (∀ ev ∈ (handle_run cfg w raw).2,
        cfg.allowed_tools.contains raw.tool = true ∧
        ∀ a, raw.args = some a → ∀ c ∈ forbiddenChars, c ∉ a.data) ∧
    ((∃ a c, raw.args = some a ∧ c ∈ forbiddenChars ∧ c ∈ a.data) →
        (handle_run cfg w raw).2 = [] ∧
        ∃ m, (handle_run cfg w raw).1 = HttpOutcome.httpError 422 m) := by
  constructor
  · intro ev hev
    unfold handle_run at hev
    cases hmk : mkToolExecutionRequest cfg raw with
    | error m => rw [hmk] at hev; simp at hev
    | ok req =>
      rw [hmk] at hev
      rw [run_tool_http_launches] at hev
      obtain ⟨hT, hA, _, _, _, hsafe, _⟩ := mk_ok_spec cfg raw req hmk
      have hspec := run_tool_launch_spec cfg w req.tool req.args req.timeout
        req.working_dir ev hev
      constructor
      · have hval := hspec.1
        unfold validate_tool_access at hval
        rw [hT] at hval
        exact (Bool.and_eq_true _ _ |>.mp hval).1
      · intro a ha c hc hmem
        have hd : argsDangerous a = true := (argsDangerous_iff a).mpr ⟨c, hc, hmem⟩
        have := hsafe a ha
        rw [this] at hd
        cases hd
  · rintro ⟨a, c, ha, hc, hmem⟩
    have hd : argsDangerous a = true := (argsDangerous_iff a).mpr ⟨c, hc, hmem⟩
    obtain ⟨m, hm⟩ := mk_error_of_dangerous cfg raw a ha hd
    unfold handle_run
    rw [hm]
    exact ⟨rfl, m, rfl⟩

/-- C1 counterexample: run_tool itself, called directly (as the MCP tool
path does), launches a process although the argument string contains
the forbidden semicolon; no validation error is raised before
launch. -/
theorem C1_counterexample :
    (run_tool defaultConfig testWorld "nmap" (some "test; rm -rf /") none none).launches.length = 1 ∧
    argsDangerous "test; rm -rf /" = true ∧
    defaultConfig.allowed_tools.contains "nmap" = true :=
  ⟨rfl, rfl, rfl⟩

/-- C1 witness: a pipeline request with a semicolon in its arguments is
rejected with 422 and launches nothing. -/
theorem C1_witness :
    (handle_run defaultConfig testWorld
        { tool := "nmap", args := some "test; rm -rf /", timeout := none,
          working_dir := none }).2 = [] ∧
    ∃ m, (handle_run defaultConfig testWorld
        { tool := "nmap", args := some "test; rm -rf /", timeout := none,
          working_dir := none }).1 = HttpOutcome.httpError 422 m :=
  (C1_pipeline_gate defaultConfig testWorld
      { tool := "nmap", args := some "test; rm -rf /", timeout := none,
        working_dir := none }).2
    ⟨"test; rm -rf /", ';', rfl, by decide, by decide⟩

/-- C2 (amended): whenever the pipeline returns a 200 result (the
process ran to completion), the response reports success regardless of
the process exit code, but the return_code field is always the
hard-coded 0; the real exit code is discarded. -/
theorem C2_success_reported_zero_exit (cfg : Config) (w : World) (raw : RawRequest)
    (resp : ToolExecutionResponse)
    (h : (handle_run cfg w raw).1 = HttpOutcome.ok resp) :
    resp.success = true ∧ resp.return_code = 0 := by
  unfold handle_run at h
  cases hmk : mkToolExecutionRequest cfg raw with
  | error m => rw [hmk] at h; cases h
  | ok req =>
    rw [hmk] at h
    exact run_tool_http_ok cfg w req resp h

/-- C2 counterexample: on a host whose process exits with code 2, the
pipeline reports return_code 0, not the real exit code. -/
theorem C2_counterexample :
    (handle_run defaultConfig testWorld
        { tool := "nmap", args := some "--version", timeout := some 10,
          working_dir := none }).1 =
      HttpOutcome.ok { success := true, output := "Nmap version 7.94", error := none,
                       tool := "nmap", args := some "--version", return_code := 0 } ∧
    testWorld.exec ["nmap", "--version"] "/tmp/kali-mcp"
        (create_sandbox_environment testWorld.environ "/tmp/kali-mcp") 10 =
      ProcOutcome.completed "Nmap version 7.94" "" 2 ∧
    (2 : Int) ≠ 0 :=
  ⟨rfl, rfl, by decide⟩

/-- C2 witness: the amended claim evaluated on a completed run. -/
theorem C2_witness :
    ({ success := true, output := "Nmap version 7.94", error := none, tool := "nmap",
       args := some "--version", return_code := 0 } : ToolExecutionResponse).success = true ∧
    ({ success := true, output := "Nmap version 7.94", error := none, tool := "nmap",
       args := some "--version", return_code := 0 } : ToolExecutionResponse).return_code = 0 :=
  C2_success_reported_zero_exit defaultConfig testWorld
    { tool := "nmap", args := some "--version", timeout := some 10, working_dir := none }
    { success := true, output := "Nmap version 7.94", error := none, tool := "nmap",
      args := some "--version", return_code := 0 } rfl

/-- C3: evaluation of sanitize_path at the specification's own example:
no dot-dot segment survives, but a doubled separator does (normpath
preserves exactly two leading slashes), contradicting the claim and
the repository's own test test_path_sanitization. -/
theorem C3_sanitize_path_keeps_doubled_separator :
    sanitize_path "../../../etc/passwd" = "//etc/passwd" ∧
    listHasInfix ['.', '.'] (sanitize_path "../../../etc/passwd").data = false ∧
    listHasInfix ['/', '/'] (sanitize_path "../../../etc/passwd").data = true :=
  ⟨rfl, rfl, rfl⟩

/-- C4: a request that passes validation launches exactly one OS
process, whose argument vector is the tool name followed by the shlex
tokens, run in the sandbox environment and resolved working directory,
and never through a shell. -/
theorem C4_single_launch_no_shell (cfg : Config) (w : World) (tool : String)
    (args : Option String) (timeout : Option Nat) (wdir : Option String) :
    (preLaunchReject (run_tool cfg w tool args timeout wdir).result = false →
        (run_tool cfg w tool args timeout wdir).launches.length = 1) ∧
    ∀ ev ∈ (run_tool cfg w tool args timeout wdir).launches,
      ev.shell = false ∧
      (∃ toks, tokenize_args args = Except.ok toks ∧ ev.argv = tool :: toks) ∧
      ev.cwd = resolve_working_dir cfg wdir ∧
      ev.env = create_sandbox_environment w.environ (resolve_working_dir cfg wdir) := by
  constructor
  · unfold run_tool
    split
    next hval =>
      split
      next e he =>
        intro h
        rw [effective_timeout_error cfg timeout e he] at h
        simp [preLaunchReject] at h
      next eff he =>
        split
        next he2 =>
          intro h
          simp [preLaunchReject] at h
        next toks ht =>
          split <;> intro _ <;> rfl
    next hval =>
      intro h
      simp [preLaunchReject] at h
  · intro ev hev
    have hs := run_tool_launch_spec cfg w tool args timeout wdir ev hev
    exact ⟨hs.2.2.2.2.2, hs.2.2.1, hs.2.2.2.1, hs.2.2.2.2.1⟩

/-- C4 witness: a concrete valid request launches exactly one shell-free
process. -/
theorem C4_witness :
    (run_tool defaultConfig testWorld "nmap" (some "-sS 10.0.0.1") (some 10) none).launches.length = 1 :=
  (C4_single_launch_no_shell defaultConfig testWorld "nmap" (some "-sS 10.0.0.1")
      (some 10) none).1 rfl

/-- C5 (amended): every launch runs in the resolved working directory,
which exists beforehand or is handed to makedirs first; when the
caller supplies no directory it is the configured root.  A
caller-supplied directory is made absolute but is not confined under
the configured root. -/
theorem C5_workdir_prepared (cfg : Config) (w : World) (tool : String)
    (args : Option String) (timeout : Option Nat) (wdir : Option String) :
    ∀ ev ∈ (run_tool cfg w tool args timeout wdir).launches,
      ev.cwd = resolve_working_dir cfg wdir ∧
      (w.pathExists ev.cwd = true ∨ ev.cwd ∈ mkdir_calls cfg w wdir) ∧
      (wdir = none → ev.cwd = cfg.working_directory) := by
  intro ev hev
  have hs := run_tool_launch_spec cfg w tool args timeout wdir ev hev
  have hcwd := hs.2.2.2.1
  refine ⟨hcwd, ?_, ?_⟩
  · rw [hcwd]
    exact workdir_exists_or_created cfg w wdir
  · intro hn
    rw [hcwd, hn]
    rfl

/-- C5 counterexample: a caller-supplied working directory escapes the
configured sandbox root: the launch runs in /etc, which is not under
/tmp/kali-mcp. -/
theorem C5_counterexample :
    (run_tool defaultConfig testWorld "nmap" none none (some "/etc")).launches.map
        LaunchEvent.cwd = ["/etc"] ∧
    List.isPrefixOf defaultConfig.working_directory.data "/etc".data = false :=
  ⟨rfl, rfl⟩

/-- The launch event of the C5 witness run. -/
def c5Event : LaunchEvent := launch_event defaultConfig testWorld "nmap" [] none 60

/-- C5 witness: the default-directory launch runs in the configured root,
which is handed to makedirs. -/
theorem C5_witness :
    c5Event.cwd = resolve_working_dir defaultConfig none ∧
    (testWorld.pathExists c5Event.cwd = true ∨
      c5Event.cwd ∈ mkdir_calls defaultConfig testWorld none) ∧
    ((none : Option String) = none → c5Event.cwd = defaultConfig.working_directory) :=
  C5_workdir_prepared defaultConfig testWorld "nmap" none none none c5Event
    (List.mem_singleton.mpr rfl)

/-- C6: for a run that completes, over-cap combined output is returned
as exactly the first max_output_size characters plus the truncation
marker, and output at or below the cap is returned unmodified. -/
theorem C6_output_capped (cfg : Config) (w : World) (tool : String)
    (args : Option String) (timeout : Option Nat) (wdir : Option String)
    (so se : String) (rc : Int) (out : String)
    (hw : ∀ a c e t, w.exec a c e t = ProcOutcome.completed so se rc)
    (hok : (run_tool cfg w tool args timeout wdir).result = Except.ok out) :
    ((so ++ se).length > cfg.max_output_size →
        out = String.mk ((so ++ se).data.take cfg.max_output_size) ++
          "\n... (output truncated)") ∧
    ((so ++ se).length ≤ cfg.max_output_size → out = so ++ se) := by
  have hout : out = truncate_output cfg (so ++ se) := by
    unfold run_tool at hok
    split at hok
    · split at hok
      · cases hok
      · split at hok
        · cases hok
        next toks ht =>
          rw [hw] at hok
          exact (Except.ok.inj hok).symm
    · cases hok
  constructor
  · intro hgt
    rw [hout]
    unfold truncate_output
    rw [if_pos hgt]
  · intro hle
    rw [hout]
    unfold truncate_output
    rw [if_neg (by omega)]

/-- C6 witness: a six-character combined output against a four-character
cap comes back as the first four characters plus the marker. -/
theorem C6_witness :
    "HELL\n... (output truncated)" =
      String.mk (("HELLO" ++ "!").data.take smallConfig.max_output_size) ++
        "\n... (output truncated)" :=
  (C6_output_capped smallConfig bigOutWorld "nmap" none none none "HELLO" "!" 0
      "HELL\n... (output truncated)" (fun _ _ _ _ => rfl) rfl).1 (by decide)

/-- C7: a caller-supplied timeout above the configured ceiling is
rejected by the pipeline with a validation error before any launch
(never clamped), and a request without a timeout runs under the
configured default timeout. -/
theorem C7_timeout_policy (cfg : Config) (w : World) (raw : RawRequest) :
    (∀ t, raw.timeout = some t → t > cfg.max_timeout →
        (handle_run cfg w raw).2 = [] ∧
        ∃ m, (handle_run cfg w raw).1 = HttpOutcome.httpError 422 m) ∧
    (raw.timeout = none →
        ∀ ev ∈ (handle_run cfg w raw).2, ev.timeoutSec = cfg.default_timeout) ∧
    (∀ tool args wdir t2, t2 > cfg.max_timeout →
        (run_tool cfg w tool args (some t2) wdir).launches = []) := by
  refine ⟨?_, ?_, ?_⟩
  · intro t ht hgt
    obtain ⟨m, hm⟩ := mk_error_of_big_timeout cfg raw t ht hgt
    unfold handle_run
    rw [hm]
    exact ⟨rfl, m, rfl⟩
  · intro hn ev hev
    unfold handle_run at hev
    cases hmk : mkToolExecutionRequest cfg raw with
    | error m => rw [hmk] at hev; simp at hev
    | ok req =>
      rw [hmk] at hev
      rw [run_tool_http_launches] at hev
      have hspec := run_tool_launch_spec cfg w req.tool req.args req.timeout
        req.working_dir ev hev
      have htime := hspec.2.1
      obtain ⟨_, _, hT, _, _, _, _⟩ := mk_ok_spec cfg raw req hmk
      rw [hT, hn] at htime
      exact (Except.ok.inj htime).symm
  · intro tool args wdir t2 hgt
    unfold run_tool
    split
    · have he : effective_timeout cfg (some t2) =
          Except.error (PyError.validationError "Timeout exceeds maximum allowed") := by
        simp only [effective_timeout]
        rw [if_pos hgt]
      rw [he]
    · rfl

/-- C7 witness: a request with timeout 999999 against the ceiling 300 is
rejected with 422 and launches nothing. -/
theorem C7_witness :
    (handle_run defaultConfig testWorld
        { tool := "nmap", args := none, timeout := some 999999, working_dir := none }).2 = [] ∧
    ∃ m, (handle_run defaultConfig testWorld
        { tool := "nmap", args := none, timeout := some 999999, working_dir := none }).1 =
      HttpOutcome.httpError 422 m :=
  (C7_timeout_policy defaultConfig testWorld
      { tool := "nmap", args := none, timeout := some 999999, working_dir := none }).1
    999999 rfl (by decide)

/-- C8 (amended): tool-name validation accepts exactly the nonempty
strings of allowed characters optionally followed by one trailing
newline; any other string is rejected at model construction. -/
theorem C8_toolname_rejection (cfg : Config) (r : RawRequest)
    (h : ¬ ((r.tool.data ≠ [] ∧ r.tool.data.all isToolChar = true) ∨
            (r.tool.data.getLast? = some '\n' ∧ r.tool.data.dropLast ≠ [] ∧
             r.tool.data.dropLast.all isToolChar = true))) :
    ∃ m, mkToolExecutionRequest cfg r = Except.error m := by
  have hre : reMatchToolName r.tool = false := by
    unfold reMatchToolName
    split
    · rfl
    next hne =>
      split
      next hall => exact absurd (Or.inl ⟨hne, hall⟩) h
      · split
        next hB => exact absurd (Or.inr hB) h
        · rfl
  exact ⟨"Tool name contains invalid characters", by simp [mkToolExecutionRequest, hre]⟩

/-- C8 counterexample: a tool name with a trailing newline contains a
character outside the allowed class yet is accepted by validation,
because re.match lets the dollar anchor match before a final
newline. -/
theorem C8_counterexample :
    mkToolExecutionRequest defaultConfig
        { tool := "nmap\n", args := none, timeout := none, working_dir := none } =
      Except.ok { tool := "nmap\n", args := none, timeout := none, working_dir := none } ∧
    '\n' ∈ "nmap\n".data ∧ isToolChar '\n' = false :=
  ⟨rfl, by decide, rfl⟩

/-- C8 witness: a tool name with a space is rejected. -/
theorem C8_witness :
    ∃ m, mkToolExecutionRequest defaultConfig
        { tool := "bad tool", args := none, timeout := none, working_dir := none } =
      Except.error m :=
  C8_toolname_rejection defaultConfig
    { tool := "bad tool", args := none, timeout := none, working_dir := none } (by decide)

/-- C9: the sandbox environment contains at most the seven retained
variables plus the two dynamic-linker variables; every other inherited
variable is dropped, PWD is forced to the working directory, the two
linker variables are forced empty, and the other retained variables
pass through from the inherited environment. -/
theorem C9_sandbox_env (env : String → Option String) (wd : String) :
    (∀ v, v ∉ restricted_vars → v ≠ "LD_PRELOAD" → v ≠ "LD_LIBRARY_PATH" →
        create_sandbox_environment env wd v = none) ∧
    create_sandbox_environment env wd "PWD" = some wd ∧
    create_sandbox_environment env wd "LD_PRELOAD" = some "" ∧
    create_sandbox_environment env wd "LD_LIBRARY_PATH" = some "" ∧
    (∀ v, v ∈ restricted_vars → v ≠ "PWD" → create_sandbox_environment env wd v = env v) := by
  refine ⟨?_, rfl, rfl, rfl, ?_⟩
  · intro v hv h1 h2
    have h3 : v ≠ "PWD" := fun hP => hv (by rw [hP]; decide)
    simp [create_sandbox_environment, h1, h2, h3, hv]
  · intro v hv hP
    fin_cases hv <;> first
      | rfl
      | exact absurd rfl hP

/-- C9 witness: the sandbox of a concrete inherited environment drops an
interpreter-path variable, forces PWD and the linker variables, and
passes PATH through. -/
theorem C9_witness :
    create_sandbox_environment (fun _ => some "x") "/tmp/test" "PYTHONPATH" = none ∧
    create_sandbox_environment (fun _ => some "x") "/tmp/test" "PWD" = some "/tmp/test" ∧
    create_sandbox_environment (fun _ => some "x") "/tmp/test" "LD_PRELOAD" = some "" ∧
    create_sandbox_environment (fun _ => some "x") "/tmp/test" "LD_LIBRARY_PATH" = some "" ∧
    create_sandbox_environment (fun _ => some "x") "/tmp/test" "PATH" = some "x" := by
  have h := C9_sandbox_env (fun _ => some "x") "/tmp/test"
  exact ⟨h.1 "PYTHONPATH" (by decide) (by decide) (by decide), h.2.1, h.2.2.1,
    h.2.2.2.1, h.2.2.2.2 "PATH" (by decide) (by decide)⟩

/-- C10 (amended): whenever listing returns a list at all — that is,
whenever no version probe raises an exception outside the caught
classes — it has exactly one entry per configured name, names that
resolve to an executable appearing available with their resolved path
and names that do not resolve appearing unavailable with an empty path
rather than being omitted.  An uncaught probe exception aborts the
whole listing instead of yielding a list. -/
theorem C10_list_tools_total (cfg : Config) (w : World) (ts : List ToolInfo)
    (i : Nat) (tname : String)
    (hok : list_tools cfg w = Except.ok ts)
    (h : cfg.allowed_tools.get? i = some tname) :
    ts.length = cfg.allowed_tools.length ∧
    ∃ ti, ts.get? i = some ti ∧ ti.name = tname ∧
      (tool_resolves w tname = true → ti.available = true ∧ w.which tname = some ti.path) ∧
      (tool_resolves w tname = false → ti.available = false ∧ ti.path = "") := by
  unfold list_tools at hok
  obtain ⟨hlen, hidx⟩ := list_tools_go_spec cfg w cfg.allowed_tools ts hok
  obtain ⟨ti, hget, hdisj⟩ := hidx i tname h
  have hmem : tname ∈ cfg.allowed_tools := mem_of_get?_entry _ i _ h
  obtain ⟨hname, htrue, hfalse⟩ := get_tool_info_entry_spec cfg w tname ti hmem hdisj
  exact ⟨hlen, ti, hget, hname, htrue, hfalse⟩

/-- A host like testWorld whose version probe raises an exception
outside the classes caught at line 240 of the source, such as the
UnicodeDecodeError of text-mode decoding. -/
def raisingWorld : World :=
  { testWorld with exec_inherit := fun _ _ =>
      ProcOutcome.raised ExcClass.otherError "UnicodeDecodeError" }

/-- C10 counterexample: with the first allow-listed tool resolvable but
its version probe raising an exception outside the caught classes, the
listing returns no entry list at all — the exception escapes
list_tools — so listing does not always return one entry per
configured name. -/
theorem C10_counterexample :
    list_tools defaultConfig raisingWorld = Except.error "UnicodeDecodeError" ∧
    validate_tool_access defaultConfig raisingWorld "nmap" = true :=
  ⟨rfl, rfl⟩

/-- The entry list the test host produces. -/
def testList : List ToolInfo :=
  match list_tools defaultConfig testWorld with
  | Except.ok ts => ts
  | Except.error _ => []

/-- C10 witness: on the test host the listing succeeds with one entry
per configured name and the first entry is the resolved nmap. -/
theorem C10_witness :
    testList.length = defaultConfig.allowed_tools.length ∧
    testList.get? 0 =
      some { name := "nmap", path := "/usr/bin/nmap",
             version := some "Nmap version 7.94", available := true } := by
  obtain ⟨hlen, _⟩ := C10_list_tools_total defaultConfig testWorld testList 0 "nmap" rfl rfl
  exact ⟨hlen, rfl⟩

end KaliMCP

